import Mathlib

/-!
Verification of the Housing Affordability Clustering pipeline.

The development shallowly embeds the deterministic parts of the pipeline:
the inference-path feature builder and anomaly handling of `app.py`, the
training-corpus derived metrics and imputation of `clean_data.py`, the
correlation-based column dropping of `refine_data.py`, the cluster-count
selection of `run_analysis.py`, and the reference prediction logic of
`test_prediction.py`. Machine floats are modelled by exact rationals; the
clustering model itself (an opaque fitted artifact) is abstracted as a
function from feature vectors to cluster ids.
-/

namespace Housing

/-- Inference-path burden ratio (`app.py`, `build_features` line 121):
`burden = (cst * 12) / max(inc, 1)`. The identical formula is used by
`predict_logic` in `test_prediction.py` line 18. -/
def inferBurden (inc cst : ℚ) : ℚ := (cst * 12) / max inc 1

/-- Training-corpus burden ratio (`clean_data.py` lines 96-102): a zero
income is replaced by 1, then `cost_burden_ratio = (COSTMED * 12) / income`,
clipped above at 3.0. -/
def trainBurden (zinc2 costmed : ℚ) : ℚ :=
  min ((costmed * 12) / (if zinc2 = 0 then 1 else zinc2)) 3

/-- Affordability status code (`app.py` line 129, mirroring `clean_data.py`
lines 111-117): 1 below 0.3, 2 between 0.3 and 0.5 inclusive, 3 above. -/
def statusCode (burden : ℚ) : ℚ :=
  if burden < 0.3 then 1 else if burden ≤ 0.5 then 2 else 3

/-- AMI category proxy (`app.py` lines 132-133): buckets of `inc / 70000`. -/
def amiCat (inc : ℚ) : ℚ :=
  let r := inc / 70000
  if r < 0.3 then 1 else if r < 0.5 then 2 else if r < 0.8 then 3 else 4

/-- The 15-slot feature vector of `app.py`, `build_features` (lines 119-157),
paired with the burden ratio the function also returns. -/
def buildFeatures (inc cst ag beds : ℚ) : List ℚ × ℚ :=
  let burden := inferBurden inc cst
  let val_est := cst * 12 * 15
  let fmr_est : ℚ := 1100
  let rooms_est := beds + 2
  let status := statusCode burden
  let ami_cat := amiCat inc
  let rent_own : ℚ := if 65000 < inc then 1 else 2
  let struct_type : ℚ := if 65000 < inc then 1 else 2
  ([inc, cst, val_est, fmr_est, burden, status, ag, 2, beds, rooms_est,
    struct_type, rent_own, 3, 1, ami_cat], burden)

/-- Flat-response cost-burden label (`app.py` line 234):
`"High" if primary_vec[4] > 0.3 else "Affordable"`. -/
def costBurdenLabel (b : ℚ) : String := if 0.3 < b then "High" else "Affordable"

/-- The canonical cluster-to-policy table of `app.py` lines 173-190,
keyed by cluster id; ids outside the table have no entry. -/
def clusterPolicyMap (c : Nat) : Option (String × String) :=
  if c = 0 then
    some ("Middle-Income Stable",
      "Workforce housing support, rent stabilization, first-time homebuyer assistance.")
  else if c = 1 then
    some ("Low-Income Severely Burdened",
      "Immediate rent subsidies, eviction prevention, emergency housing assistance.")
  else if c = 2 then
    some ("High-Income Secure",
      "Market-rate housing development, inclusionary zoning, cross-subsidy for affordable housing.")
  else if c = 3 then
    some ("Extremely Low-Income / No Income",
      "Emergency shelter, supportive housing, income verification and benefits enrollment.")
  else none

/-- Policy lookup as `app.py` lines 192-196 performs it: a mapped id yields
its entry, an unmapped id yields the explicit error response
`"Invalid cluster predicted: <id>"` (HTTP 500), never a default entry. -/
def policyLookup (c : Nat) : Except String (String × String) :=
  match clusterPolicyMap c with
  | some e => Except.ok e
  | none => Except.error ("Invalid cluster predicted: " ++ toString c)

/-- Modelled from the spec: the trained clustering artifact
(`kmeans_model.pkl`) is not part of the source tree; the spec's scenarios and
the repository's tests (`test_fix.py`, `test_api.py`) fix the deployed
model's cluster count at four, ids 0 through 3. -/
def modelK : Nat := 4

/-- The raw `age` field of a prediction request as `app.py` lines 94-116
distinguishes it: absent (`None` or `""`), a string `float()` rejects, or a
value that parses, carried with its raw text. -/
inductive RawAge where
  | absent : RawAge
  | unparsable : String → RawAge
  | value : String → ℚ → RawAge

/-- Configured median age default (`app.py` line 97). -/
def AGE_MEDIAN : ℚ := 35

/-- Age handling of `app.py` lines 96-116: returns the age used and the
age-anomaly flag. Missing or unparsable input is defaulted silently; a
parsed value outside `[18, 110]` is defaulted and flagged. -/
def processAge : RawAge → ℚ × Bool
  | RawAge.absent => (AGE_MEDIAN, false)
  | RawAge.unparsable _ => (AGE_MEDIAN, false)
  | RawAge.value _ v => if v < 18 ∨ 110 < v then (AGE_MEDIAN, true) else (v, false)

/-- The raw text of the `age` field, as the f-string of `app.py` line 226
interpolates it into the anomaly message. -/
def rawAgeText : RawAge → String
  | RawAge.absent => ""
  | RawAge.unparsable s => s
  | RawAge.value s _ => s

/-- Monthly-income heuristic of `app.py` line 222:
`(income < 6000) and (cost >= 800) and (burden > 2.0)`. -/
def possibleMonthly (income cost burden : ℚ) : Bool :=
  decide (income < 6000) && decide (800 ≤ cost) && decide (2 < burden)

/-- The anomaly list `app.py` lines 224-228 accumulates: the age message
(echoing the raw value) when the age anomaly fired, then the
monthly-income message when the heuristic fires. -/
def appAnomalies (ageAnomaly : Bool) (rawAge : String) (income cost burden : ℚ) :
    List String :=
  (if ageAnomaly then ["Age " ++ rawAge ++ " invalid (out of range). used median."]
   else []) ++
  (if possibleMonthly income cost burden then ["Potential monthly income entry detected."]
   else [])

/-- Aggregate anomaly indicator (`app.py` line 230): `len(anomalies) > 0`. -/
def anomalyFlag (anomalies : List String) : Bool := decide (0 < anomalies.length)

/-- The anomaly list of `predict_logic` in `test_prediction.py` lines 30-37:
an extreme-burden flag for `burden > 2.0` and a low-income flag for
`income <= 6000`. -/
def predictLogicAnomalies (income cost : ℚ) : List String :=
  let burden := inferBurden income cost
  (if 2 < burden then ["Extremely high cost burden (>200%)"] else []) ++
  (if income ≤ 6000 then ["Extremely low income (<= $6000)"] else [])

/-- The flat JSON object `app.py` lines 236-243 returns on success. It has
exactly these six fields; in particular no alternative-interpretation
field exists in the response. -/
structure PredictResponse where
  cluster : Nat
  cost_burden_ratio : ℚ
  cost_burden_label : String
  recommendation : String
  anomaly_flag : Bool
  anomaly_reasons : List String
deriving DecidableEq

/-- The deterministic part of the `/api/predict` handler (`app.py` lines
94-243), with the fitted scaler-plus-model composed into an abstract
`assign` function from the raw feature vector to a cluster id. -/
def predictResponse (assign : List ℚ → Nat) (income cost : ℚ) (rawAge : RawAge)
    (beds : ℚ) : Except String PredictResponse :=
  let a := processAge rawAge
  let p := buildFeatures income cost a.1 beds
  let cluster := assign p.1
  match clusterPolicyMap cluster with
  | none => Except.error ("Invalid cluster predicted: " ++ toString cluster)
  | some e =>
    let anomalies := appAnomalies a.2 (rawAgeText rawAge) income cost p.2
    Except.ok
      { cluster := cluster
        cost_burden_ratio := p.2
        cost_burden_label := costBurdenLabel (p.1.getD 4 0)
        recommendation := e.1 ++ ": " ++ e.2
        anomaly_flag := anomalyFlag anomalies
        anomaly_reasons := anomalies }

/-- Correlation-based drop list of `refine_data.py` lines 63-68: column `j`
is dropped when some earlier column `i < j` has absolute correlation with it
above 0.85 (the strictly-upper-triangle mask keeps exactly the pairs
`i < j`). Line 70 prints ("logs") exactly this list. -/
def corrDropList (corr : Nat → Nat → ℚ) (n : Nat) : List Nat :=
  (List.range n).filter
    (fun j => (List.range j).any (fun i => decide ((0.85 : ℚ) < |corr i j|)))

/-- The fixed candidate column order of `refine_data.py` lines 35-42. -/
def candidates : List String :=
  ["ZINC2", "COSTMED", "VALUE", "FMR", "cost_burden_ratio", "affordability_status",
   "AGE1", "PER", "BEDRMS", "ROOMS", "FMTSTRUCTURETYPE", "FMTOWNRENT", "FMTSTATUS",
   "REGION", "METRO3", "Locality_Label", "FMTINCRELAMICAT"]

/-- A concrete correlation input: candidate columns 5 (`affordability_status`,
a categorical-coded derivative) and 6 (`AGE1`, a continuous measure)
correlate at 0.9; every other pair is uncorrelated. -/
def corrHighStatusAge (i j : Nat) : ℚ :=
  if (i = 5 ∧ j = 6) ∨ (i = 6 ∧ j = 5) then 9 / 10 else 0

/-- First index of the maximal element, matching `np.argmax`
(`run_analysis.py` line 64); 0 on the empty list. -/
def argmaxIdx : List ℚ → Nat
  | [] => 0
  | [_] => 0
  | x :: xs => if xs.getD (argmaxIdx xs) 0 ≤ x then 0 else argmaxIdx xs + 1

/-- The candidate cluster counts `range(2, 11)` of `run_analysis.py` line 34. -/
def K_range : List Nat := [2, 3, 4, 5, 6, 7, 8, 9, 10]

/-- Cluster-count selection of `run_analysis.py` line 64:
`optimal_k = K_range[np.argmax(sil_scores)]`. The inertia list computed by
the same loop is in scope but unused by the selection. -/
def selectOptimalK (inertia : List ℚ) (sil_scores : List ℚ) : Nat :=
  K_range.getD (argmaxIdx sil_scores) 0

/-- The median as `pandas.Series.median` computes it (sort, middle element,
or mean of the two middle elements for an even count). -/
def pandasMedian (xs : List ℚ) : ℚ :=
  if (List.insertionSort (· ≤ ·) xs).length % 2 = 1 then
    (List.insertionSort (· ≤ ·) xs).getD ((List.insertionSort (· ≤ ·) xs).length / 2) 0
  else
    ((List.insertionSort (· ≤ ·) xs).getD
        ((List.insertionSort (· ≤ ·) xs).length / 2 - 1) 0 +
      (List.insertionSort (· ≤ ·) xs).getD
        ((List.insertionSort (· ≤ ·) xs).length / 2) 0) / 2

/-- Numeric imputation of `clean_data.py` line 45:
`df[col].fillna(df[col].median())`. An all-missing column has a missing
median, so `fillna` leaves it unchanged. -/
def imputeNumericCol (col : List (Option ℚ)) : List (Option ℚ) :=
  if (col.filterMap id).isEmpty then col
  else col.map (fun c => some (c.getD (pandasMedian (col.filterMap id))))

/-- The first element of `pandas.Series.mode`: the distinct values of
maximal count, sorted ascending, first taken — so ties among equally
frequent values resolve to the smallest such value. -/
def pandasMode (xs : List ℚ) : Option ℚ :=
  (List.insertionSort (· ≤ ·)
    (xs.dedup.filter
      (fun v => xs.dedup.all (fun w => decide (xs.count w ≤ xs.count v))))).head?

/-- Categorical imputation of `clean_data.py` lines 48-49:
`df[col].fillna(df[col].mode()[0])` when the mode series is non-empty. -/
def imputeCategoricalCol (col : List (Option ℚ)) : List (Option ℚ) :=
  match pandasMode (col.filterMap id) with
  | none => col
  | some m => col.map (fun c => some (c.getD m))

/-- Stated from the spec's words, for comparison with `pandasMode`: the mode
with ties broken by the first-encountered value in the column's row order. -/
def firstModeSpec (xs : List ℚ) : Option ℚ :=
  xs.find? (fun v => xs.all (fun w => decide (xs.count w ≤ xs.count v)))

/-- Claim C1, counterexample: the training-corpus construction and the
inference-path builder do not compute the same burden ratio. At income 1000,
monthly cost 1000 the training path clips the ratio to 3.0 while the
inference path returns 12. At income 1/2, monthly cost 1/10 no clipping is
involved, yet the training path divides by the income 1/2 while the
inference path divides by max(1/2, 1) = 1, so the two values differ. -/
theorem C1_counterexample :
    trainBurden 1000 1000 = 3 ∧ inferBurden 1000 1000 = 12 ∧
      trainBurden 1000 1000 < inferBurden 1000 1000 ∧
      trainBurden (1 / 2) (1 / 10) = 12 / 5 ∧ inferBurden (1 / 2) (1 / 10) = 6 / 5 ∧
      inferBurden (1 / 2) (1 / 10) < trainBurden (1 / 2) (1 / 10) := by
  refine ⟨?_, ?_, ?_, ?_, ?_, ?_⟩ <;>
    norm_num [trainBurden, inferBurden, min_def, max_def]

/-- Claim C1 (amended): the two burden-ratio computations agree exactly where
the training-only clipping and the differing low-income guards are inactive:
for every income at least 1 whose unclipped ratio is at most 3.0, the
training-corpus ratio equals the inference-path ratio. -/
theorem C1_shared_burden_agreement (income cost : ℚ) (h1 : 1 ≤ income)
    (h2 : cost * 12 / income ≤ 3) :
    trainBurden income cost = inferBurden income cost := by
  have h0 : income ≠ 0 := by
    have : (0 : ℚ) < income := lt_of_lt_of_le one_pos h1
    exact ne_of_gt this
  rw [trainBurden, inferBurden, if_neg h0, min_eq_left h2, max_eq_left h1]

/-- Claim C1, witness at income 45000, cost 1200. -/
theorem C1_witness :
    (1 : ℚ) ≤ 45000 ∧ (1200 : ℚ) * 12 / 45000 ≤ 3 ∧
      trainBurden 45000 1200 = inferBurden 45000 1200 :=
  ⟨by norm_num, by norm_num,
    C1_shared_burden_agreement 45000 1200 (by norm_num) (by norm_num)⟩

/-- Claim C2, counterexample: the inference burden ratio is not
`cost * 12 / income` for every positive income — at income 1/2 the code
divides by `max(1/2, 1) = 1` — and it is negative when the cost is
negative, so it is not always non-negative. -/
theorem C2_counterexample :
    inferBurden (1 / 2) 100 = 1200 ∧ (100 * 12 : ℚ) / (1 / 2) = 2400 ∧
      inferBurden (1 / 2) 100 < (100 * 12 : ℚ) / (1 / 2) ∧
      inferBurden 50000 (-100) < 0 := by
  refine ⟨?_, ?_, ?_, ?_⟩ <;> norm_num [inferBurden, max_def]

/-- Claim C2 (amended): the inference burden ratio is
`cost * 12 / max(income, 1)`; for income at least 1 it equals
`cost * 12 / income`; for income below 1 the divisor is 1; the divisor is
always positive (so the value is always defined and finite); and the result
is non-negative whenever the cost is non-negative. -/
theorem C2_burden_formula (income cost : ℚ) :
    inferBurden income cost = cost * 12 / max income 1 ∧
      (1 ≤ income → inferBurden income cost = cost * 12 / income) ∧
      (income < 1 → inferBurden income cost = cost * 12) ∧
      0 < max income 1 ∧
      (0 ≤ cost → 0 ≤ inferBurden income cost) := by
  refine ⟨rfl, fun h => ?_, fun h => ?_, ?_, fun hc => ?_⟩
  · rw [inferBurden, max_eq_left h]
  · rw [inferBurden, max_eq_right h.le, div_one]
  · exact lt_of_lt_of_le one_pos (le_max_right _ _)
  · exact div_nonneg (mul_nonneg hc (by norm_num))
      (le_of_lt (lt_of_lt_of_le one_pos (le_max_right _ _)))

/-- Claim C2, witness: the income-at-least-1 branch at (45000, 1200), the
income-below-1 branch at (1/2, 100), and non-negativity at (45000, 1200). -/
theorem C2_witness :
    inferBurden 45000 1200 = 1200 * 12 / 45000 ∧
      inferBurden (1 / 2) 100 = 100 * 12 ∧
      0 ≤ inferBurden 45000 1200 :=
  ⟨(C2_burden_formula 45000 1200).2.1 (by norm_num),
    (C2_burden_formula (1 / 2) 100).2.2.1 (by norm_num),
    (C2_burden_formula 45000 1200).2.2.2.2 (by norm_num)⟩

/-- Claim C3: an unmapped cluster id makes the lookup fail with the explicit
error message naming the id (never a defaulted entry): every id the table
does not hold errors, every id at least `modelK` = 4 is outside the table,
and every id in `[0, modelK - 1]` resolves to a label-and-policy entry. -/
theorem C3_policy_lookup_total :
    (∀ c : Nat, clusterPolicyMap c = none →
        policyLookup c = Except.error ("Invalid cluster predicted: " ++ toString c)) ∧
      (∀ c : Nat, modelK ≤ c → clusterPolicyMap c = none) ∧
      (∀ i : Nat, i < modelK → ∃ lab pol, policyLookup i = Except.ok (lab, pol)) := by
  refine ⟨fun c h => ?_, fun c h => ?_, fun i h => ?_⟩
  · rw [policyLookup, h]
  · have hc : 4 ≤ c := h
    have h0 : c ≠ 0 := by omega
    have h1 : c ≠ 1 := by omega
    have h2 : c ≠ 2 := by omega
    have h3 : c ≠ 3 := by omega
    simp [clusterPolicyMap, h0, h1, h2, h3]
  · have h4 : i < 4 := h
    interval_cases i
    · exact ⟨_, _, rfl⟩
    · exact ⟨_, _, rfl⟩
    · exact ⟨_, _, rfl⟩
    · exact ⟨_, _, rfl⟩

/-- Claim C3, witness: id 7 errors explicitly, id 2 resolves. -/
theorem C3_witness :
    policyLookup 7 = Except.error "Invalid cluster predicted: 7" ∧
      ∃ lab pol, policyLookup 2 = Except.ok (lab, pol) :=
  ⟨by rw [C3_policy_lookup_total.1 7 (C3_policy_lookup_total.2.1 7 (by decide))]
      rfl,
    C3_policy_lookup_total.2.2 2 (by decide)⟩

/-- Claim C4: evaluation of the request handler at the failing input
income 1300, cost 800 (the scenario of `test_fix.py`, case C). The
monthly-income heuristic fires and the flag message is appended, but the flat
response — whose full concrete value this theorem computes — carries no
alternative interpretation at all: re-running the builder/assigner with
`income * 12` happens nowhere in `app.py`, although `test_fix.py` asserts
`alternative_interpretation.adjusted_annual_income == 15600`. -/
theorem C4_no_alternative_interpretation :
    possibleMonthly 1300 800 (inferBurden 1300 800) = true ∧
      predictResponse (fun _ => 3) 1300 800 RawAge.absent 3 =
        Except.ok
          { cluster := 3
            cost_burden_ratio := 96 / 13
            cost_burden_label := "High"
            recommendation :=
              "Extremely Low-Income / No Income: Emergency shelter, supportive housing, income verification and benefits enrollment."
            anomaly_flag := true
            anomaly_reasons := ["Potential monthly income entry detected."] } := by
  constructor
  · norm_num [possibleMonthly, inferBurden]
  · norm_num [predictResponse, processAge, buildFeatures, inferBurden, statusCode,
      amiCat, possibleMonthly, appAnomalies, anomalyFlag, costBurdenLabel,
      clusterPolicyMap, rawAgeText, AGE_MEDIAN]
    rfl

/-- Claim C5: evaluation at income 1300, cost 800. The burden ratio exceeds
2.0 and the income is at most 6000, yet the handler's accumulated anomaly
list holds only the monthly-income message — neither the
"extremely high cost burden" nor the "extremely low income" flag that
`predict_logic` in `test_prediction.py` produces (and that `test_api.py`
asserts the endpoint returns). The aggregate indicator itself does equal
"list non-empty" on these lists. -/
theorem C5_extreme_flags_missing :
    2 < inferBurden 1300 800 ∧ (1300 : ℚ) ≤ 6000 ∧
      appAnomalies false "" 1300 800 (inferBurden 1300 800) =
        ["Potential monthly income entry detected."] ∧
      predictLogicAnomalies 1300 800 =
        ["Extremely high cost burden (>200%)", "Extremely low income (<= $6000)"] ∧
      anomalyFlag [] = false ∧
      anomalyFlag ["Potential monthly income entry detected."] = true := by
  refine ⟨?_, ?_, ?_, ?_, rfl, rfl⟩
  · norm_num [inferBurden]
  · norm_num
  · norm_num [appAnomalies, possibleMonthly, inferBurden]
  · norm_num [predictLogicAnomalies, inferBurden]

/-- Claim C6: a missing or unparsable age is replaced by the configured
median default with no age anomaly; a parsed age inside [18, 110] is kept;
a parsed age outside [18, 110] is replaced by the same default with the
anomaly flag set, and the anomaly note echoes the raw value; and the
request handler still returns a successful response for every age input
whenever the assigned cluster is mapped. -/
theorem C6_age_handling :
    processAge RawAge.absent = (AGE_MEDIAN, false) ∧
      (∀ s : String, processAge (RawAge.unparsable s) = (AGE_MEDIAN, false)) ∧
      (∀ (s : String) (v : ℚ), 18 ≤ v → v ≤ 110 →
        processAge (RawAge.value s v) = (v, false)) ∧
      (∀ (s : String) (v : ℚ), v < 18 ∨ 110 < v →
        processAge (RawAge.value s v) = (AGE_MEDIAN, true)) ∧
      (∀ (s : String) (income cost burden : ℚ), ∃ rest,
        appAnomalies true s income cost burden =
          ("Age " ++ s ++ " invalid (out of range). used median.") :: rest) ∧
      (∀ (assign : List ℚ → Nat) (income cost beds : ℚ) (rawAge : RawAge)
        (e : String × String),
        clusterPolicyMap
            (assign (buildFeatures income cost (processAge rawAge).1 beds).1) = some e →
        ∃ r, predictResponse assign income cost rawAge beds = Except.ok r) := by
  refine ⟨rfl, fun s => rfl, fun s v h1 h2 => ?_, fun s v h => ?_,
    fun s income cost burden => ⟨_, rfl⟩, fun assign income cost beds rawAge e he => ?_⟩
  · rw [processAge, if_neg]
    push_neg
    exact ⟨h1, h2⟩
  · rw [processAge, if_pos h]
  · unfold predictResponse
    simp only [he]
    exact ⟨_, rfl⟩

/-- Claim C6, witness: age 140 (raw text "140") is defaulted to the median
with the anomaly set and the note echoing "140"; age 40 is kept; a missing
age is defaulted silently. -/
theorem C6_witness :
    processAge (RawAge.value "140" 140) = (AGE_MEDIAN, true) ∧
      (∃ rest, appAnomalies true "140" 35000 900 (inferBurden 35000 900) =
        ("Age " ++ "140" ++ " invalid (out of range). used median.") :: rest) ∧
      processAge (RawAge.value "40" 40) = (40, false) ∧
      processAge RawAge.absent = (AGE_MEDIAN, false) :=
  ⟨C6_age_handling.2.2.2.1 "140" 140 (Or.inr (by norm_num)),
    C6_age_handling.2.2.2.2.1 "140" 35000 900 (inferBurden 35000 900),
    C6_age_handling.2.2.1 "40" 40 (by norm_num) (by norm_num),
    C6_age_handling.1⟩

/-- Claim C8, counterexample: with columns 5 (`affordability_status`, coded)
and 6 (`AGE1`, continuous) correlated at 0.9, the selector drops column 6 —
the continuous measure — because it appears later in the candidate order,
keeping the coded column; no configured priority order is consulted. -/
theorem C8_counterexample :
    corrDropList corrHighStatusAge 17 = [6] ∧
      candidates.getD 6 "" = "AGE1" ∧
      candidates.getD 5 "" = "affordability_status" := by
  refine ⟨?_, rfl, rfl⟩
  norm_num [corrDropList, corrHighStatusAge, List.range_succ, List.filter_append,
    List.filter, List.any, abs_of_nonneg]

/-- Claim C8 (amended): for any pair `i < j` whose absolute correlation
exceeds 0.85, the selector drops the later column `j` of the fixed candidate
order — a table-order rule, with no configured priority — and the earlier
column `i` is dropped exactly when it is itself the later column of some
other high-correlation pair; the printed drop list is exactly this set. -/
theorem C8_drop_is_table_order (corr : Nat → Nat → ℚ) (n i j : Nat) (hij : i < j)
    (hjn : j < n) (hc : (0.85 : ℚ) < |corr i j|) :
    j ∈ corrDropList corr n ∧
      (i ∈ corrDropList corr n ↔ ∃ k, k < i ∧ (0.85 : ℚ) < |corr k i|) := by
  have hin : i < n := lt_trans hij hjn
  constructor
  · simp only [corrDropList, List.mem_filter, List.mem_range, List.any_eq_true,
      decide_eq_true_eq]
    exact ⟨hjn, i, hij, hc⟩
  · simp only [corrDropList, List.mem_filter, List.mem_range, List.any_eq_true,
      decide_eq_true_eq]
    constructor
    · rintro ⟨-, k, hk, hkc⟩
      exact ⟨k, hk, hkc⟩
    · rintro ⟨k, hk, hkc⟩
      exact ⟨hin, k, hk, hkc⟩

/-- Claim C8, witness at the concrete correlation input: column 6 is
dropped, and column 5 stays because no earlier column correlates with it. -/
theorem C8_witness :
    6 ∈ corrDropList corrHighStatusAge 17 ∧
      (5 ∈ corrDropList corrHighStatusAge 17 ↔
        ∃ k, k < 5 ∧ (0.85 : ℚ) < |corrHighStatusAge k 5|) :=
  C8_drop_is_table_order corrHighStatusAge 17 5 6 (by norm_num) (by norm_num)
    (by norm_num [corrHighStatusAge, abs_of_nonneg])

/-- Claim C10: the cost-burden label of every successful response is either
"High" or "Affordable"; it is "High" exactly when the burden ratio — the
fifth slot of the feature vector, which equals the returned burden — is
strictly greater than 0.3; and at exactly 0.3 the label is "Affordable"
while the feature vector's affordability status code is 2 (burdened). -/
theorem C10_label_dichotomy :
    ∀ inc cst ag beds : ℚ,
      (buildFeatures inc cst ag beds).1.getD 4 0 = (buildFeatures inc cst ag beds).2 ∧
        (costBurdenLabel ((buildFeatures inc cst ag beds).1.getD 4 0) = "High" ∨
          costBurdenLabel ((buildFeatures inc cst ag beds).1.getD 4 0) = "Affordable") ∧
        (costBurdenLabel ((buildFeatures inc cst ag beds).1.getD 4 0) = "High" ↔
          0.3 < (buildFeatures inc cst ag beds).2) ∧
        costBurdenLabel 0.3 = "Affordable" ∧ statusCode 0.3 = 2 := by
  intro inc cst ag beds
  have h4 : (buildFeatures inc cst ag beds).1.getD 4 0 =
      (buildFeatures inc cst ag beds).2 := rfl
  refine ⟨h4, ?_, ?_, by norm_num [costBurdenLabel], by norm_num [statusCode]⟩
  · rw [h4, costBurdenLabel]
    by_cases hb : (0.3 : ℚ) < (buildFeatures inc cst ag beds).2
    · rw [if_pos hb]
      exact Or.inl rfl
    · rw [if_neg hb]
      exact Or.inr rfl
  · rw [h4, costBurdenLabel]
    by_cases hb : (0.3 : ℚ) < (buildFeatures inc cst ag beds).2
    · rw [if_pos hb]
      exact iff_of_true rfl hb
    · rw [if_neg hb]
      constructor
      · intro he
        exact absurd he (by decide)
      · intro hb'
        exact absurd hb' hb

/-- Unfolding equation for `argmaxIdx` on a list of length at least two. -/
theorem argmaxIdx_cons₂ (x y : ℚ) (ys : List ℚ) :
    argmaxIdx (x :: y :: ys) =
      if (y :: ys).getD (argmaxIdx (y :: ys)) 0 ≤ x then 0
      else argmaxIdx (y :: ys) + 1 := rfl

/-- `argmaxIdx` of a non-empty list is a valid index. -/
theorem argmaxIdx_lt : ∀ (l : List ℚ), l ≠ [] → argmaxIdx l < l.length
  | [], h => absurd rfl h
  | [_], _ => Nat.zero_lt_one
  | x :: y :: ys, _ => by
    have ih := argmaxIdx_lt (y :: ys) (by simp)
    rw [argmaxIdx_cons₂]
    by_cases hc : (y :: ys).getD (argmaxIdx (y :: ys)) 0 ≤ x
    · rw [if_pos hc]
      simp
    · rw [if_neg hc]
      simp only [List.length_cons] at ih ⊢
      omega

/-- The element at `argmaxIdx` dominates every element of the list. -/
theorem argmaxIdx_le : ∀ (l : List ℚ) (i : Nat), i < l.length →
    l.getD i 0 ≤ l.getD (argmaxIdx l) 0
  | [], i, h => by simp at h
  | [x], i, h => by
    have h1 : i < 1 := by simpa using h
    have h0 : i = 0 := by omega
    subst h0
    exact le_refl _
  | x :: y :: ys, i, h => by
    rw [argmaxIdx_cons₂]
    by_cases hc : (y :: ys).getD (argmaxIdx (y :: ys)) 0 ≤ x
    · rw [if_pos hc]
      match i with
      | 0 => exact le_refl _
      | i + 1 =>
        have ih := argmaxIdx_le (y :: ys) i (by simpa using h)
        rw [List.getD_cons_succ, List.getD_cons_zero]
        exact le_trans ih hc
    · rw [if_neg hc]
      push_neg at hc
      match i with
      | 0 =>
        rw [List.getD_cons_zero, List.getD_cons_succ]
        exact le_of_lt hc
      | i + 1 =>
        have ih := argmaxIdx_le (y :: ys) i (by simpa using h)
        rw [List.getD_cons_succ, List.getD_cons_succ]
        exact ih

/-- `argmaxIdx` is the first index attaining the maximum (`np.argmax`
returns the first occurrence). -/
theorem argmaxIdx_first : ∀ (l : List ℚ) (i : Nat), i < l.length →
    l.getD i 0 = l.getD (argmaxIdx l) 0 → argmaxIdx l ≤ i
  | [], i, h, _ => by simp at h
  | [_], i, _, _ => Nat.zero_le i
  | x :: y :: ys, i, h, he => by
    rw [argmaxIdx_cons₂] at he ⊢
    by_cases hc : (y :: ys).getD (argmaxIdx (y :: ys)) 0 ≤ x
    · rw [if_pos hc]
      exact Nat.zero_le i
    · rw [if_neg hc] at he ⊢
      push_neg at hc
      match i with
      | 0 =>
        exfalso
        rw [List.getD_cons_zero, List.getD_cons_succ] at he
        exact absurd he (ne_of_lt hc)
      | i + 1 =>
        rw [List.getD_cons_succ, List.getD_cons_succ] at he
        have := argmaxIdx_first (y :: ys) i (by simpa using h) he
        omega

/-- Claim C9: the selected cluster count ignores the inertia curve entirely;
for a 9-entry silhouette list (k = 2..10) it lies in [2, 10], its silhouette
score dominates every candidate's, and among equal maximal scores the
smallest k wins. -/
theorem C9_k_selection :
    (∀ (in1 in2 sil : List ℚ), selectOptimalK in1 sil = selectOptimalK in2 sil) ∧
      (∀ (inertia sil : List ℚ), sil.length = 9 →
        (2 ≤ selectOptimalK inertia sil ∧ selectOptimalK inertia sil ≤ 10) ∧
          (∀ i, i < 9 → sil.getD i 0 ≤ sil.getD (selectOptimalK inertia sil - 2) 0) ∧
          (∀ i, i < 9 → sil.getD i 0 = sil.getD (selectOptimalK inertia sil - 2) 0 →
            selectOptimalK inertia sil - 2 ≤ i)) := by
  have hK : ∀ j, j < 9 → K_range.getD j 0 = j + 2 := by decide
  constructor
  · intro _ _ _
    rfl
  · intro inertia sil hlen
    have hne : sil ≠ [] := by
      intro h0
      rw [h0] at hlen
      simp at hlen
    have hlt : argmaxIdx sil < 9 := by
      have := argmaxIdx_lt sil hne
      omega
    have hsel : selectOptimalK inertia sil = argmaxIdx sil + 2 := by
      rw [selectOptimalK, hK _ hlt]
    refine ⟨⟨by omega, by omega⟩, fun i hi => ?_, fun i hi he => ?_⟩
    · have := argmaxIdx_le sil i (by omega)
      rwa [hsel, Nat.add_sub_cancel]
    · have := argmaxIdx_first sil i (by omega) (by rwa [hsel, Nat.add_sub_cancel] at he)
      omega

/-- Claim C9, witness: a concrete silhouette list with a tie between k = 3
and k = 4; the selection is 3 regardless of the inertia list. -/
theorem C9_witness :
    selectOptimalK [10, 20] [1, 3, 3, 2, 0, 0, 0, 0, 0] =
        selectOptimalK [] [1, 3, 3, 2, 0, 0, 0, 0, 0] ∧
      2 ≤ selectOptimalK [] [1, 3, 3, 2, 0, 0, 0, 0, 0] ∧
      selectOptimalK [] [1, 3, 3, 2, 0, 0, 0, 0, 0] - 2 ≤ 2 :=
  ⟨C9_k_selection.1 [10, 20] [] [1, 3, 3, 2, 0, 0, 0, 0, 0],
    ((C9_k_selection.2 [] [1, 3, 3, 2, 0, 0, 0, 0, 0] rfl).1).1,
    (C9_k_selection.2 [] [1, 3, 3, 2, 0, 0, 0, 0, 0] rfl).2.2 2 (by norm_num) (by decide)⟩

/-- Filling a column with a scalar keeps every present cell. -/
theorem getD_map_fill_present (col : List (Option ℚ)) (m v : ℚ) (i : Nat)
    (h : col.getD i none = some v) :
    (col.map (fun c => some (c.getD m))).getD i none = some v := by
  rw [List.getD_eq_getElem?_getD] at h ⊢
  rw [List.getElem?_map]
  rcases hc : col[i]? with _ | c
  · rw [hc] at h
    simp at h
  · rw [hc] at h
    simp only [Option.getD_some] at h
    subst h
    rfl

/-- Filling a column with a scalar writes the scalar into every missing
cell within range. -/
theorem getD_map_fill_missing (col : List (Option ℚ)) (m : ℚ) (i : Nat)
    (hi : i < col.length) (h : col.getD i none = none) :
    (col.map (fun c => some (c.getD m))).getD i none = some m := by
  rw [List.getD_eq_getElem?_getD] at h ⊢
  rw [List.getElem?_map]
  rcases hc : col[i]? with _ | c
  · have := List.getElem?_eq_none_iff.1 hc
    omega
  · rw [hc] at h
    simp only [Option.getD_some] at h
    subst h
    rfl

/-- `pandasMode` of a non-empty list is a value of the list of maximal
count, and among the maximal-count values it is the least. -/
theorem pandasMode_spec (xs : List ℚ) (hx : xs ≠ []) :
    ∃ m, pandasMode xs = some m ∧ m ∈ xs ∧
      (∀ w ∈ xs, xs.count w ≤ xs.count m) ∧
      (∀ w ∈ xs, xs.count w = xs.count m → m ≤ w) := by
  obtain ⟨x, hx_mem⟩ := List.exists_mem_of_ne_nil xs hx
  have hxd : x ∈ xs.dedup := List.mem_dedup.2 hx_mem
  rcases hA : xs.dedup.argmax (fun v => xs.count v) with _ | a
  · exact absurd (List.argmax_eq_none.1 hA) (List.ne_nil_of_mem hxd)
  have hA' : a ∈ xs.dedup.argmax (fun v => xs.count v) := hA
  have ha_mem : a ∈ xs.dedup := List.argmax_mem hA'
  have ha_max : ∀ w ∈ xs.dedup, xs.count w ≤ xs.count a :=
    fun w hw => List.le_of_mem_argmax hw hA'
  have ha_cand : a ∈ xs.dedup.filter
      (fun v => xs.dedup.all fun w => decide (xs.count w ≤ xs.count v)) := by
    refine List.mem_filter.2 ⟨ha_mem, ?_⟩
    rw [List.all_eq_true]
    intro w hw
    exact decide_eq_true (ha_max w hw)
  have hperm : List.Perm
      (List.insertionSort (· ≤ ·) (xs.dedup.filter
        (fun v => xs.dedup.all fun w => decide (xs.count w ≤ xs.count v))))
      (xs.dedup.filter
        (fun v => xs.dedup.all fun w => decide (xs.count w ≤ xs.count v))) :=
    List.perm_insertionSort _ _
  have hsorted : List.Sorted (· ≤ ·)
      (List.insertionSort (· ≤ ·) (xs.dedup.filter
        (fun v => xs.dedup.all fun w => decide (xs.count w ≤ xs.count v)))) :=
    List.sorted_insertionSort _ _
  rcases hsrt : List.insertionSort (· ≤ ·) (xs.dedup.filter
      (fun v => xs.dedup.all fun w => decide (xs.count w ≤ xs.count v))) with _ | ⟨m, rest⟩
  · rw [hsrt] at hperm
    rw [hperm.symm.eq_nil] at ha_cand
    exact absurd ha_cand (List.not_mem_nil a)
  rw [hsrt] at hperm hsorted
  have hm_cand : m ∈ xs.dedup.filter
      (fun v => xs.dedup.all fun w => decide (xs.count w ≤ xs.count v)) :=
    hperm.subset (List.mem_cons_self m rest)
  obtain ⟨hm_dedup, hm_all⟩ := List.mem_filter.1 hm_cand
  have hm_max : ∀ w ∈ xs.dedup, xs.count w ≤ xs.count m := by
    intro w hw
    have := (List.all_eq_true.1 hm_all) w hw
    exact of_decide_eq_true this
  refine ⟨m, ?_, List.mem_dedup.1 hm_dedup, ?_, ?_⟩
  · rw [pandasMode, hsrt]
    rfl
  · intro w hw
    exact hm_max w (List.mem_dedup.2 hw)
  · intro w hw hcount
    have hw_cand : w ∈ xs.dedup.filter
        (fun v => xs.dedup.all fun w => decide (xs.count w ≤ xs.count v)) := by
      refine List.mem_filter.2 ⟨List.mem_dedup.2 hw, ?_⟩
      rw [List.all_eq_true]
      intro w' hw'
      exact decide_eq_true (hcount ▸ hm_max w' hw')
    have hw_sorted : w ∈ m :: rest := hperm.symm.subset hw_cand
    rcases List.mem_cons.1 hw_sorted with h0 | h0
    · exact le_of_eq h0.symm
    · exact List.rel_of_sorted_cons hsorted w h0

/-- The `pandas` median of an odd-length list is an element of the list. -/
theorem pandasMedian_mem_of_odd (xs : List ℚ) (h : xs.length % 2 = 1) :
    pandasMedian xs ∈ xs := by
  have hlen : (List.insertionSort (· ≤ ·) xs).length = xs.length :=
    List.length_insertionSort _ xs
  have hodd : (List.insertionSort (· ≤ ·) xs).length % 2 = 1 := by
    rw [hlen]
    exact h
  have hpos : (List.insertionSort (· ≤ ·) xs).length / 2 <
      (List.insertionSort (· ≤ ·) xs).length := by omega
  rw [pandasMedian, if_pos hodd, List.getD_eq_getElem?_getD,
    List.getElem?_eq_getElem hpos]
  simp only [Option.getD_some]
  exact (List.perm_insertionSort _ xs).subset (List.getElem_mem hpos)

/-- Claim C7 (amended): after cleaning, present cells are preserved by both
imputation branches; every missing numeric cell receives the pandas median
of the column's non-missing values (an element of the column when their
count is odd); and every missing categorical/coded cell receives the
column's mode, where ties among equally frequent values resolve to the
smallest tied value — pandas sorts the modes ascending and takes the first —
not to the first-encountered value in row order. -/
theorem C7_imputation :
    ∀ (col : List (Option ℚ)) (i : Nat) (v : ℚ),
      (col.getD i none = some v →
        (imputeNumericCol col).getD i none = some v ∧
          (imputeCategoricalCol col).getD i none = some v) ∧
      (col.getD i none = none → i < col.length → col.filterMap id ≠ [] →
        (imputeNumericCol col).getD i none = some (pandasMedian (col.filterMap id)) ∧
          ∃ m, (imputeCategoricalCol col).getD i none = some m ∧
            m ∈ col.filterMap id ∧
            (∀ w ∈ col.filterMap id,
              (col.filterMap id).count w ≤ (col.filterMap id).count m) ∧
            (∀ w ∈ col.filterMap id,
              (col.filterMap id).count w = (col.filterMap id).count m → m ≤ w)) ∧
      ((col.filterMap id).length % 2 = 1 →
        pandasMedian (col.filterMap id) ∈ col.filterMap id) := by
  intro col i v
  refine ⟨fun hp => ⟨?_, ?_⟩, fun hm hi hne => ⟨?_, ?_⟩,
    fun hodd => pandasMedian_mem_of_odd _ hodd⟩
  · rw [imputeNumericCol]
    by_cases he : (col.filterMap id).isEmpty = true
    · rw [if_pos he]
      exact hp
    · rw [if_neg he]
      exact getD_map_fill_present col _ v i hp
  · rw [imputeCategoricalCol]
    rcases hmode : pandasMode (col.filterMap id) with _ | m
    · exact hp
    · exact getD_map_fill_present col m v i hp
  · have he : ¬ (col.filterMap id).isEmpty = true := by
      simpa [List.isEmpty_iff] using hne
    rw [imputeNumericCol, if_neg he]
    exact getD_map_fill_missing col _ i hi hm
  · obtain ⟨m, hmode, hmem, hmax, hmin⟩ := pandasMode_spec (col.filterMap id) hne
    refine ⟨m, ?_, hmem, hmax, hmin⟩
    rw [imputeCategoricalCol, hmode]
    exact getD_map_fill_missing col m i hi hm

/-- Claim C7, counterexample: in the column [5, 2, missing, 5, 2] the values
5 and 2 are equally frequent; the first-encountered tied value is 5, but the
code imputes 2 — `mode()[0]` is the smallest tied value, not the first
encountered. -/
theorem C7_counterexample :
    (imputeCategoricalCol [some 5, some 2, none, some 5, some 2]).getD 2 none =
        some 2 ∧
      firstModeSpec ([some (5 : ℚ), some 2, none, some 5, some 2].filterMap id) =
        some 5 ∧
      (2 : ℚ) < 5 := by
  refine ⟨by decide, by decide, by norm_num⟩

/-- Claim C7, witness: the missing cell of the numeric column
[1, missing, 3, 10, 2] receives the pandas median of [1, 3, 10, 2]. -/
theorem C7_witness :
    (imputeNumericCol [some 1, none, some 3, some 10, some 2]).getD 1 none =
      some (pandasMedian [1, 3, 10, 2]) := by
  have h := ((C7_imputation [some 1, none, some 3, some 10, some 2] 1 0).2.1 rfl
    (by norm_num) (by decide)).1
  exact h

end Housing
